import Mathlib

/-!
Verification of the scroll-driven visibility and animation-parameter engine of
the portfolio page (src/src/App.jsx and the unnamed LiquidBackground file).

The embedding below translates, component by component, the logic that the
claims are about: the `useInView` latch used by the scroll-reveal components,
the `useTransform` piecewise-linear scroll-progress mappings, the `useSpring`
smoothing pass on the experience-card scale, the reduced-motion media-query
state, the stats counter interval loop, the magnetic-button offset handlers,
and the declared enter-animation configurations of the motion elements of the
reduced-motion-aware `App`. Machine numbers are embedded as exact rationals
and the DOM event loop as explicit event lists folded over step functions.
-/

/-! ## Viewport visibility latch (framer-motion `useInView`)

Each reveal component holds a boolean driven by intersection events.
`useInView` with `once: true` stops observing after the first entry, so the
boolean stays true; with `once: false` it follows entry and exit. -/

/-- Intersection events delivered to an observed element: the element starts
or stops intersecting the (margin-adjusted) viewport. -/
inductive ViewEvent where
  | enter
  | leave
deriving DecidableEq, Repr

/-- One observer callback for the `useInView` boolean. With `once = true`
the subscription is dropped after the value becomes true, so a later leave
event no longer lowers it; with `once = false` the value follows the events. -/
def inViewStep (once : Bool) (s : Bool) (e : ViewEvent) : Bool :=
  match e with
  | ViewEvent.enter => true
  | ViewEvent.leave => if once && s then s else false

/-- Fold of the `useInView` boolean over a sequence of intersection events. -/
def inViewRun (once : Bool) (s : Bool) (es : List ViewEvent) : Bool :=
  es.foldl (inViewStep once) s

/-- Source: `useInView(ref, { once: true, margin: "-100px" })` in AnimatedText. -/
def animatedTextOnce : Bool := true

/-- Source: `useInView(ref, { once: true, margin: "-50px" })` in ScrollCard. -/
def scrollCardOnce : Bool := true

/-- Source: `useInView(ref, { once: true })` in Counter. -/
def counterOnce : Bool := true

/-- Source: `useInView(cardRef, { once: false, margin: "-20%" })` in
ExperienceCard and AnimatedExperienceCard. -/
def experienceCardOnce : Bool := false

/-! ## Scroll-progress mappings (framer-motion `useTransform`) -/

/-- Linear interpolation between two output values. -/
def mix (a b t : ℚ) : ℚ := a + (b - a) * t

/-- Normalised position of `p` inside the input segment `[a, b]`. -/
def segProgress (a b p : ℚ) : ℚ := if b - a = 0 then 0 else (p - a) / (b - a)

/-- Clamp `p` into `[lo, hi]`; `useTransform` clamps its input range. -/
def clampQ (lo hi p : ℚ) : ℚ := max lo (min hi p)

/-- Two-breakpoint `useTransform([x0, x1], [y0, y1])` mapping. -/
def transform2 (x0 x1 y0 y1 p : ℚ) : ℚ :=
  mix y0 y1 (segProgress x0 x1 (clampQ x0 x1 p))

/-- Four-breakpoint `useTransform([x0, x1, x2, x3], [y0, y1, y2, y3])`
mapping: clamp the input, pick the segment, interpolate linearly inside it. -/
def transform4 (x0 x1 x2 x3 y0 y1 y2 y3 p : ℚ) : ℚ :=
  let q := clampQ x0 x3 p
  if q ≤ x1 then mix y0 y1 (segProgress x0 x1 q)
  else if q ≤ x2 then mix y1 y2 (segProgress x1 x2 q)
  else mix y2 y3 (segProgress x2 x3 q)

/-- Source: `useTransform(scrollYProgress, [0, 0.3, 0.7, 1], [0.8, 1, 1, 0.9])`
for the experience-card scale. -/
def cardScale (p : ℚ) : ℚ := transform4 0 (3/10) (7/10) 1 (4/5) 1 1 (9/10) p

/-- Source: `useTransform(scrollYProgress, [0, 0.2, 0.8, 1], [0.3, 1, 1, 0.3])`
for the experience-card opacity. -/
def cardOpacity (p : ℚ) : ℚ := transform4 0 (1/5) (4/5) 1 (3/10) 1 1 (3/10) p

/-- Source: `useTransform(scrollYProgress, [0, 1], [0, speed * -200])` in
ParallaxElement (and FloatingElement). -/
def parallaxY (speed p : ℚ) : ℚ := transform2 0 1 0 (speed * (-200)) p

/-- Source: the progress bar renders `style={{ scaleX: scrollYProgress }}`. -/
def progressBarScaleX (p : ℚ) : ℚ := p

/-- Speeds of the three floating orbs mounted by `App`. -/
def parallaxSpeeds : List ℚ := [3/10, 1/2, 1/5]

/-- All `useTransform`-mapped scroll outputs recomputed for one frame at
scroll position `p`: progress bar, card scale target, card opacity, and the
parallax offsets of the mounted orbs. -/
def frameOutputs (p : ℚ) : ℚ × ℚ × ℚ × List ℚ :=
  (progressBarScaleX p, cardScale p, cardOpacity p,
    parallaxSpeeds.map (fun s => parallaxY s p))

/-- Scroll position after a trace of scroll events (last event wins). -/
def lastScroll (tr : List ℚ) : Option ℚ := tr.getLast?

/-- Mapped outputs after a trace of scroll events: the mapping layer is
stateless, so they are a function of the last position alone. -/
def traceOutputs (tr : List ℚ) : Option (ℚ × ℚ × ℚ × List ℚ) :=
  (lastScroll tr).map frameOutputs

/-! ## Spring smoothing (framer-motion `useSpring`) -/

/-- Position and velocity of the spring smoother. -/
structure SpringState where
  pos : ℚ
  vel : ℚ
deriving DecidableEq, Repr

/-- Modelled from the spec: the `useSpring` smoothing pass (framer-motion
library code, not part of this repository) that the spec calls a
critically-damped spring smoothing pass applied to the mapped card scale.
Embedded as one animation-frame step of damped-spring integration
(semi-implicit Euler with frame length `h`), with the stiffness and damping
constants taken from the source call site. -/
def springStep (stiffness damping h target : ℚ) (s : SpringState) : SpringState :=
  let v := s.vel + h * (stiffness * (target - s.pos) - damping * s.vel)
  { pos := s.pos + h * v, vel := v }

/-- Source: `useSpring(cardScale, { stiffness: 100, damping: 20 })`, run over
a trace of per-frame scroll positions starting from the initial mapped value
`cardScale 0` at rest. -/
def smoothScaleRun (tr : List ℚ) : SpringState :=
  tr.foldl (fun s p => springStep 100 20 (1/60) (cardScale p) s)
    { pos := cardScale 0, vel := 0 }

/-- Rendered experience-card scale: the spring-smoothed value actually bound
to `style.scale`, after a trace of per-frame scroll positions. -/
def renderedCardScale (tr : List ℚ) : ℚ := (smoothScaleRun tr).pos

/-! ## Reduced-motion preference (`useIsMobile` and `useReducedMotion`) -/

/-- Browser events that reach the mounted application. -/
inductive AppEvent where
  | mediaChange (m : Bool)
  | reducedMotionChange (m : Bool)
  | scroll (p : ℚ)
  | resize (w : ℕ)
  | click
  | keypress
deriving DecidableEq, Repr

/-- State backing the process-wide motion preference: the `useIsMobile`
boolean and the `useReducedMotion` boolean. -/
structure MotionPrefState where
  isMobile : Bool
  prefersReduced : Bool
deriving DecidableEq, Repr

/-- Mount-time initialisation. Source: `useState` initialiser evaluating
`window.matchMedia('(max-width: 768px), (pointer: coarse)').matches`, and
`useReducedMotion()` reading the OS reduced-motion media query (framer-motion
hook, modelled from the spec as the OS media-query state). -/
def motionPrefInit (osReduced coarsePointer : Bool) (width : ℕ) : MotionPrefState :=
  { isMobile := decide (width ≤ 768) || coarsePointer
    prefersReduced := osReduced }

/-- Event step for the motion preference. Source: `setIsMobile` is called
only from the change listener registered on the combined media query, and
`useReducedMotion` updates only from its own media-query change listener;
every other event leaves the state untouched. -/
def motionPrefStep (s : MotionPrefState) (e : AppEvent) : MotionPrefState :=
  match e with
  | AppEvent.mediaChange m => { s with isMobile := m }
  | AppEvent.reducedMotionChange m => { s with prefersReduced := m }
  | _ => s

/-- Source: `const shouldReduceMotion = prefersReducedMotion || isMobile`. -/
def shouldReduceMotion (s : MotionPrefState) : Bool := s.prefersReduced || s.isMobile

/-! ## Declared enter-animation configurations of the motion elements

Each motion element of the reduced-motion-aware `App` declares an `initial`
state, an animation target, and a transition. An `initial` of `none` embeds
`initial={false}` (or an unanimated element): the element renders directly at
its target with no enter animation. A `target` of `none` embeds an empty or
absent animation target. A `duration` of `none` embeds an unspecified
duration (library default). -/

/-- Declarative transform, with the settled values as defaults. -/
structure Transform where
  opacity : ℚ := 1
  x : ℚ := 0
  y : ℚ := 0
  scale : ℚ := 1
  rotateX : ℚ := 0
deriving DecidableEq, Repr

/-- Settled end-state transform. -/
def settledT : Transform := {}

/-- Declared animation configuration of one motion element. -/
structure MotionCfg where
  initial : Option Transform
  target : Option Transform
  duration : Option ℚ
  delay : ℚ
deriving DecidableEq, Repr

/-- An element renders its settled end state immediately when it declares no
pre-animation state, no animation target, an initial equal to its target, or
an instant transition. -/
def settledImmediately (c : MotionCfg) : Bool :=
  decide (c.initial = none ∨ c.target = none ∨ c.initial = c.target ∨
    (c.duration = some 0 ∧ c.delay = 0))

/-- Source: reduced-motion-aware ScrollCard. `initial` is `false` under
reduced motion, the animate target is the settled state (unconditionally
under reduced motion, else gated on `isInView`), duration 0 under reduced
motion and 0.7 otherwise, caller-supplied delay. -/
def scrollCardCfg (rm : Bool) (d : ℚ) (iv : Bool) : MotionCfg :=
  { initial := if rm then none else some { opacity := 0, y := 80, scale := 95/100 }
    target := if rm then some settledT else if iv then some settledT else none
    duration := some (if rm then 0 else 7/10)
    delay := d }

/-- Source: reduced-motion-aware AnimatedText. Under reduced motion the
component returns a plain span with no motion wrappers; otherwise each
letter animates from `{opacity 0, y 50, rotateX -90}` over 0.5s with a
staggered delay, gated on `isInView`. -/
def animatedTextCfg (rm : Bool) (d : ℚ) (i : ℕ) (iv : Bool) : MotionCfg :=
  if rm then { initial := none, target := none, duration := none, delay := 0 }
  else
    { initial := some { opacity := 0, y := 50, rotateX := -90 }
      target := if iv then some settledT else none
      duration := some (1/2)
      delay := d + i * (3/100) }

/-- Source: hero subtitle in the reduced-motion-aware `App`
(`initial={shouldReduceMotion ? false : {opacity: 0, y: 20}}`, duration and
delay zeroed under reduced motion). -/
def heroSubtitleCfg (rm : Bool) : MotionCfg :=
  { initial := if rm then none else some { opacity := 0, y := 20 }
    target := some settledT
    duration := some (if rm then 0 else 3/5)
    delay := if rm then 0 else 3/5 }

/-- Source: hero call-to-action block, same gating with delay 0.8. -/
def heroCtaCfg (rm : Bool) : MotionCfg :=
  { initial := if rm then none else some { opacity := 0, y := 20 }
    target := some settledT
    duration := some (if rm then 0 else 3/5)
    delay := if rm then 0 else 4/5 }

/-- Source: hero availability note, same gating with delay 1. -/
def heroNoteCfg (rm : Bool) : MotionCfg :=
  { initial := if rm then none else some { opacity := 0 }
    target := some settledT
    duration := some (if rm then 0 else 3/5)
    delay := if rm then 0 else 1 }

/-- Source: skill pill (`initial={shouldReduceMotion ? false : ...}`,
`whileInView={shouldReduceMotion ? undefined : ...}`, staggered delay). -/
def skillPillCfg (rm : Bool) (i : ℕ) : MotionCfg :=
  { initial := if rm then none else some { opacity := 0, scale := 4/5 }
    target := if rm then none else some settledT
    duration := none
    delay := i * (1/10) }

/-- Source: the scroll-indicator motion element in the reduced-motion-aware
`App`: `initial={{opacity: 0}} animate={{opacity: 1}}` with
`transition={{delay: 1.5}}`, declared identically whatever the value of the
reduced-motion flag (only the separate `style.opacity` binding consults it). -/
def scrollIndicatorCfg (_rm : Bool) : MotionCfg :=
  { initial := some { opacity := 0 }
    target := some settledT
    duration := none
    delay := 3/2 }

/-- Source: section titles (`initial={{opacity: 0, y: 50}}` with
`whileInView`), declared identically whatever the reduced-motion flag. -/
def sectionTitleCfg (_rm : Bool) : MotionCfg :=
  { initial := some { opacity := 0, y := 50 }
    target := some settledT
    duration := none
    delay := 0 }

/-- Source: the contact-section reveal wrapper
(`initial={{opacity: 0, scale: 0.9}}`, duration 0.6), declared identically
whatever the reduced-motion flag. -/
def contactRevealCfg (_rm : Bool) : MotionCfg :=
  { initial := some { opacity := 0, scale := 9/10 }
    target := some settledT
    duration := some (3/5)
    delay := 0 }

/-- Source: the contact subtitle (`initial={{opacity: 0}}`, delay 0.8),
declared identically whatever the reduced-motion flag. -/
def contactSubtitleCfg (_rm : Bool) : MotionCfg :=
  { initial := some { opacity := 0 }
    target := some settledT
    duration := none
    delay := 4/5 }

/-- Source: the nav logo (`initial={{opacity: 0, x: -20}}`, duration 0.6),
declared identically whatever the reduced-motion flag. -/
def navLogoCfg (_rm : Bool) : MotionCfg :=
  { initial := some { opacity := 0, x := -20 }
    target := some settledT
    duration := some (3/5)
    delay := 0 }

/-- The motion elements declared by the reduced-motion-aware `App` (one
representative per distinct configuration), as a function of the
reduced-motion flag. -/
def appMotionCfgs (rm : Bool) : List MotionCfg :=
  [ scrollCardCfg rm 0 false
  , scrollCardCfg rm (1/10) false
  , animatedTextCfg rm (1/10) 0 false
  , heroSubtitleCfg rm
  , heroCtaCfg rm
  , heroNoteCfg rm
  , skillPillCfg rm 0
  , scrollIndicatorCfg rm
  , sectionTitleCfg rm
  , contactRevealCfg rm
  , contactSubtitleCfg rm
  , navLogoCfg rm ]

/-! ## Observer attachment under reduced motion -/

/-- Observation wiring of a reveal component at mount. -/
structure RevealSetup where
  observerAttached : Bool
  initialInView : Bool
deriving DecidableEq, Repr

/-- Source: the reduced-motion-aware AnimatedText calls
`useInView(ref, ...)` unconditionally before the reduced-motion early
return, and attaches `ref` to the returned span in both branches, so the
observer subscription exists whatever the flag; the boolean starts false. -/
def animatedTextSetup (_rm : Bool) : RevealSetup :=
  { observerAttached := true, initialInView := false }

/-- Source: the reduced-motion-aware ScrollCard likewise calls
`useInView(ref, ...)` unconditionally with `ref` attached to the rendered
element, whatever the flag; the boolean starts false. -/
def scrollCardSetup (_rm : Bool) : RevealSetup :=
  { observerAttached := true, initialInView := false }

/-- Source: under reduced motion AnimatedText returns the plain text span
and never consults the `useInView` boolean. -/
def animatedTextRenderIgnoresInView (rm : Bool) : Bool := rm

/-! ## Intersection geometry (margins) -/

/-- Vertical intersection test: an element spanning `[top, bottom]` in
viewport coordinates intersects the viewport `[0, viewH]` expanded by margin
`m` on each edge (rootMargin semantics: a negative margin contracts the
viewport). -/
def inViewGeom (m viewH top bottom : ℚ) : Bool :=
  decide (max top (0 - m) < min bottom (viewH + m))

/-- Source: ScrollCard observes with `margin: "-50px"`. -/
def scrollCardMargin : ℚ := -50

/-- Source: AnimatedText observes with `margin: "-100px"`. -/
def animatedTextMargin : ℚ := -100

/-- In-view test actually used by ScrollCard. -/
def scrollCardInView (viewH top bottom : ℚ) : Bool :=
  inViewGeom scrollCardMargin viewH top bottom

/-- In-view test against the plain, unadjusted viewport. -/
def plainInView (viewH top bottom : ℚ) : Bool :=
  inViewGeom 0 viewH top bottom

/-- Modelled from the spec for comparison with the code: the trigger
condition the spec describes, the viewport extended by a 50px bottom margin. -/
def specExtendedInView (viewH top bottom : ℚ) : Bool :=
  decide (max top 0 < min bottom (viewH + 50))

/-! ## Stats counter (`Counter`) -/

/-- State of the counter interval loop: the floating accumulator `start`,
the displayed `count`, and whether the interval timer is still running. -/
structure CounterState where
  start : ℚ
  count : ℤ
  running : Bool
deriving DecidableEq, Repr

/-- Source: `const increment = end / (duration * 60)`. -/
def counterInc (v : ℕ) (d : ℚ) : ℚ := (v : ℚ) / (d * 60)

/-- One interval tick of the counter. Source: add the increment; if the
accumulator reached the target, display the target and clear the interval;
otherwise display the floor of the accumulator. A cleared timer never fires
again. -/
def counterTick (v : ℕ) (d : ℚ) (s : CounterState) : CounterState :=
  if s.running then
    let st := s.start + counterInc v d
    if (v : ℚ) ≤ st then { start := st, count := v, running := false }
    else { start := st, count := ⌊st⌋, running := true }
  else s

/-- Counter state after `k` interval ticks, from the mount state
(`useState(0)`, accumulator 0, timer armed once in view). -/
def counterRun (v : ℕ) (d : ℚ) : ℕ → CounterState
  | 0 => { start := 0, count := 0, running := true }
  | k + 1 => counterTick v d (counterRun v d k)

/-- Source: under reduced motion the effect runs `setCount(parseInt(value))`
and returns without arming the interval. -/
def counterReducedCount (v : ℕ) : ℤ := v

/-! ## Magnetic button -/

/-- Two-dimensional offset. -/
structure Vec2 where
  x : ℚ
  y : ℚ
deriving DecidableEq, Repr

/-- Bounding rectangle of the button element. -/
structure Rect where
  left : ℚ
  top : ℚ
  width : ℚ
  height : ℚ
deriving DecidableEq, Repr

/-- Source: `handleMouse` sets
`x = (clientX - left - width / 2) * 0.3` and
`y = (clientY - top - height / 2) * 0.3`. -/
def magneticHandleMouse (r : Rect) (clientX clientY : ℚ) : Vec2 :=
  { x := (clientX - r.left - r.width / 2) * (3/10)
    y := (clientY - r.top - r.height / 2) * (3/10) }

/-- Source: `const reset = () => setPosition({ x: 0, y: 0 })` on mouse leave. -/
def magneticReset : Vec2 := { x := 0, y := 0 }

/-- Source: `onMouseMove={reduceMotion ? undefined : handleMouse}` (and the
same for mouse leave): handlers are disabled under reduced motion. -/
def magneticHandlersEnabled (rm : Bool) : Bool := !rm

/-- Source: `animate={reduceMotion ? { x: 0, y: 0 } : { x: position.x,
y: position.y }}`. -/
def magneticAnimate (rm : Bool) (pos : Vec2) : Vec2 :=
  if rm then { x := 0, y := 0 } else pos

/-! ## Easter-egg tap sequence

Modelled from the spec: the easter-egg tap-sequence state machine of the
richest page variant is not among the source files of the repository (only
the spec describes it), so the machine below follows section 4.4 of the spec
verbatim: pulse period 2000ms, bright phase the first and last 18% of the
cycle, same-cycle duplicate taps ignored, skipped-cycle taps restart the
count at 1, six accepted taps open the modal and arm a 30s cooldown, and a
tap outside the bright phase unconditionally zeroes the count and clears the
last-accepted-cycle marker. -/

/-- Easter-egg state: accepted-tap count, cycle of the last accepted tap,
cooldown deadline (ms), and whether the modal is open. -/
structure EggState where
  tapCount : ℕ
  lastAcceptedCycle : Option ℕ
  cooldownUntil : ℕ
  isOpen : Bool
deriving DecidableEq, Repr

/-- Pulse period in milliseconds (default 2000ms). -/
def pulseDurationMs : ℕ := 2000

/-- Bright-window length: 18% of the pulse period. -/
def brightWindowMs : ℕ := 360

/-- A tap at absolute time `t` (ms) lands in the bright phase when its phase
within the cycle is in the first or last 18% of the period. -/
def brightPhase (t : ℕ) : Bool :=
  decide (t % pulseDurationMs < brightWindowMs) ||
    decide (pulseDurationMs - brightWindowMs ≤ t % pulseDurationMs)

/-- Pulse cycle index of a tap at time `t`. -/
def cycleOf (t : ℕ) : ℕ := t / pulseDurationMs

/-- One tap of the easter-egg machine at absolute time `t`. -/
def eggStep (s : EggState) (t : ℕ) : EggState :=
  if brightPhase t = false then
    { s with tapCount := 0, lastAcceptedCycle := none }
  else if t < s.cooldownUntil then s
  else
    let c := cycleOf t
    match s.lastAcceptedCycle with
    | none => { s with tapCount := 1, lastAcceptedCycle := some c }
    | some lc =>
      if c = lc then s
      else if c = lc + 1 then
        if 6 ≤ s.tapCount + 1 then
          { tapCount := 0, lastAcceptedCycle := none
            cooldownUntil := t + 30000, isOpen := true }
        else { s with tapCount := s.tapCount + 1, lastAcceptedCycle := some c }
      else { s with tapCount := 1, lastAcceptedCycle := some c }

/-- Easter-egg state at mount. -/
def eggInit : EggState :=
  { tapCount := 0, lastAcceptedCycle := none, cooldownUntil := 0, isOpen := false }

/-- Fold of the easter-egg machine over a trace of tap times. -/
def eggRun (s : EggState) (taps : List ℕ) : EggState := taps.foldl eggStep s

/-! ## Helper lemmas -/

/-- Once the `once = true` in-view boolean is true, any further events keep
it true. -/
theorem inViewRun_of_true (t : List ViewEvent) : inViewRun true true t = true := by
  induction t with
  | nil => rfl
  | cons e t ih => cases e <;> simpa [inViewRun, inViewStep] using ih

/-- Running the in-view boolean over an appended trace factors through the
intermediate state. -/
theorem inViewRun_append (once s : Bool) (t₁ t₂ : List ViewEvent) :
    inViewRun once s (t₁ ++ t₂) = inViewRun once (inViewRun once s t₁) t₂ := by
  simp [inViewRun, List.foldl_append]

/-! ## Claim theorems -/

/-- Claim C1, counterexample: the ExperienceCard in-view flag is configured
with `once: false`, and on the event trace enter-then-leave it first becomes
true and then reverts to false, so the visibility boolean is not write-once
for every tracked element. -/
theorem c1_counterexample :
    experienceCardOnce = false ∧
    inViewRun experienceCardOnce false [ViewEvent.enter] = true ∧
    inViewRun experienceCardOnce false [ViewEvent.enter, ViewEvent.leave] = false := by
  refine ⟨rfl, rfl, rfl⟩

/-- Claim C1 (amended): for the elements observed with `once: true`
(AnimatedText, ScrollCard, Counter) the visibility boolean transitions at
most once, false to true, and never reverts afterwards; the ExperienceCard
flag is instead configured with `once: false` and follows entry and exit. -/
theorem c1_amended (t₁ t₂ : List ViewEvent)
    (h : inViewRun scrollCardOnce false t₁ = true) :
    inViewRun scrollCardOnce false (t₁ ++ t₂) = true ∧
    animatedTextOnce = true ∧ counterOnce = true := by
  refine ⟨?_, rfl, rfl⟩
  rw [inViewRun_append, h]
  exact inViewRun_of_true t₂

/-- Witness for the amended claim C1 at a concrete trace. -/
theorem c1_amended_witness :
    inViewRun scrollCardOnce false [ViewEvent.enter] = true ∧
    inViewRun scrollCardOnce false ([ViewEvent.enter] ++ [ViewEvent.leave]) = true :=
  ⟨by decide, (c1_amended [ViewEvent.enter] [ViewEvent.leave] (by decide)).1⟩

/-- Claim C4: the process-wide motion preference evaluates to reduced at
mount exactly when the OS reduced-motion query matches, or the pointer is
coarse, or the viewport width is at most 768px; and after mount only the two
media-query change events write the state — scroll, resize, click and key
events leave it untouched. -/
theorem c4_motion_pref :
    (∀ (os cp : Bool) (w : ℕ),
      shouldReduceMotion (motionPrefInit os cp w) = (os || cp || decide (w ≤ 768))) ∧
    (∀ (s : MotionPrefState) (p : ℚ), motionPrefStep s (AppEvent.scroll p) = s) ∧
    (∀ (s : MotionPrefState) (w : ℕ), motionPrefStep s (AppEvent.resize w) = s) ∧
    (∀ s : MotionPrefState, motionPrefStep s AppEvent.click = s) ∧
    (∀ s : MotionPrefState, motionPrefStep s AppEvent.keypress = s) := by
  refine ⟨?_, fun s p => rfl, fun s w => rfl, fun s => rfl, fun s => rfl⟩
  intro os cp w
  cases os <;> cases cp <;> simp [shouldReduceMotion, motionPrefInit, Bool.or_comm]

/-- Claim C5, counterexample: under reduced motion both AnimatedText and
ScrollCard still attach the intersection observer, and the visibility
boolean still starts false rather than being set true immediately. -/
theorem c5_counterexample :
    (animatedTextSetup true).observerAttached = true ∧
    (animatedTextSetup true).initialInView = false ∧
    (scrollCardSetup true).observerAttached = true ∧
    (scrollCardSetup true).initialInView = false :=
  ⟨rfl, rfl, rfl, rfl⟩

/-- Claim C5 (amended): for every element mounted under reduced motion the
rendered output is the settled content immediately and does not consult the
visibility boolean at all (ScrollCard declares no pre-animation state and an
unconditional settled target; AnimatedText returns plain text), but the
intersection observer is still attached and the boolean still starts false
and is driven by intersection events as usual. -/
theorem c5_amended (d : ℚ) (iv : Bool) :
    (scrollCardCfg true d iv).initial = none ∧
    (scrollCardCfg true d iv).target = some settledT ∧
    animatedTextRenderIgnoresInView true = true ∧
    (animatedTextSetup true).observerAttached = true ∧
    (scrollCardSetup true).observerAttached = true ∧
    (animatedTextSetup true).initialInView = false ∧
    (scrollCardSetup true).initialInView = false :=
  ⟨rfl, rfl, rfl, rfl, rfl, rfl, rfl⟩

/-- Claim C10: every mouse-move event sets the magnetic offset to exactly
0.3 times the cursor offset from the element centre on each axis, mouse
leave resets it to (0, 0), and under reduced motion the handlers are
disabled and the animated offset is the constant (0, 0). -/
theorem c10_magnetic (r : Rect) (cx cy : ℚ) (pos : Vec2) :
    (magneticHandleMouse r cx cy).x = (3/10) * (cx - (r.left + r.width / 2)) ∧
    (magneticHandleMouse r cx cy).y = (3/10) * (cy - (r.top + r.height / 2)) ∧
    magneticReset = { x := 0, y := 0 } ∧
    magneticHandlersEnabled true = false ∧
    magneticAnimate true pos = { x := 0, y := 0 } ∧
    magneticAnimate false pos = pos := by
  refine ⟨?_, ?_, rfl, rfl, rfl, rfl⟩ <;> simp [magneticHandleMouse] <;> ring

/-- Claim C2, counterexample: not every motion element of the
reduced-motion-aware `App` renders its settled end state immediately under
reduced motion — the scroll-indicator still declares an enter animation from
opacity 0 to 1 with a 1.5s delay and a nonzero default duration, as do the
section titles, the nav logo and the contact-section reveals, whatever the
reduced-motion flag. -/
theorem c2_counterexample :
    (appMotionCfgs true).all settledImmediately = false ∧
    settledImmediately (scrollIndicatorCfg true) = false ∧
    settledImmediately (contactRevealCfg true) = false := by
  refine ⟨by decide, by decide, ?_⟩
  norm_num [settledImmediately, contactRevealCfg, settledT]
  exact ⟨Option.some_ne_none _, Option.some_ne_none _⟩

/-- Claim C2 (amended): every motion element that consults the
reduced-motion flag (ScrollCard, AnimatedText, the hero subtitle, call to
action and note, the skill pills) renders its settled end state immediately
under reduced motion; but the scroll-indicator, section titles, nav logo and
contact-section elements do not consult the flag and still declare enter
animations under reduced motion. -/
theorem c2_amended (d : ℚ) (i : ℕ) (iv : Bool) :
    settledImmediately (scrollCardCfg true d iv) = true ∧
    settledImmediately (animatedTextCfg true d i iv) = true ∧
    settledImmediately (heroSubtitleCfg true) = true ∧
    settledImmediately (heroCtaCfg true) = true ∧
    settledImmediately (heroNoteCfg true) = true ∧
    settledImmediately (skillPillCfg true i) = true ∧
    settledImmediately (scrollIndicatorCfg true) = false ∧
    settledImmediately (sectionTitleCfg true) = false ∧
    settledImmediately (contactRevealCfg true) = false ∧
    settledImmediately (contactSubtitleCfg true) = false ∧
    settledImmediately (navLogoCfg true) = false := by
  refine ⟨?_, ?_, ?_, ?_, ?_, ?_, by decide, by decide, ?_, by decide, ?_⟩ <;>
    (norm_num [settledImmediately, scrollCardCfg, animatedTextCfg, heroSubtitleCfg,
      heroCtaCfg, heroNoteCfg, skillPillCfg, contactRevealCfg, navLogoCfg, settledT]
     try exact ⟨Option.some_ne_none _, Option.some_ne_none _⟩)

/-- Claim C6, counterexample: at viewport height 1000 an element spanning
990 to 1090 has entered the plain viewport (and intersects the viewport
extended by a 50px bottom margin, the trigger condition the claim
describes), yet the in-view test ScrollCard actually uses (margin -50px,
which contracts the viewport) is still false, so the reveal fires later than
plain-viewport entry, not before it. -/
theorem c6_counterexample :
    plainInView 1000 990 1090 = true ∧
    specExtendedInView 1000 990 1090 = true ∧
    scrollCardInView 1000 990 1090 = false := by
  refine ⟨?_, ?_, ?_⟩ <;>
    norm_num [plainInView, specExtendedInView, scrollCardInView, inViewGeom,
      scrollCardMargin, max_def, min_def, decide_eq_true_eq, decide_eq_false_iff_not]

/-- Claim C6 (amended): the ScrollCard margin is -50px, which contracts the
viewport by 50px on each edge, so the visibility boolean first becomes true
only once the element overlaps the contracted viewport — at or after
plain-viewport entry, never before it. -/
theorem c6_amended (viewH top bottom : ℚ)
    (h : scrollCardInView viewH top bottom = true) :
    plainInView viewH top bottom = true := by
  simp only [scrollCardInView, plainInView, inViewGeom, scrollCardMargin,
    decide_eq_true_eq] at h ⊢
  rw [max_lt_iff, lt_min_iff, lt_min_iff] at h
  rw [max_lt_iff, lt_min_iff, lt_min_iff]
  obtain ⟨⟨h1, h2⟩, h3, h4⟩ := h
  refine ⟨⟨?_, ?_⟩, ?_, ?_⟩ <;> linarith

/-- Witness for the amended claim C6 at a concrete geometry. -/
theorem c6_amended_witness :
    scrollCardInView 1000 100 300 = true ∧ plainInView 1000 100 300 = true := by
  have h : scrollCardInView 1000 100 300 = true := by
    norm_num [scrollCardInView, inViewGeom, scrollCardMargin, max_def, min_def,
      decide_eq_true_eq]
  exact ⟨h, c6_amended 1000 100 300 h⟩

/-- Clamping is the identity inside the input range. -/
theorem clampQ_eq_self {lo hi p : ℚ} (h0 : lo ≤ p) (h1 : p ≤ hi) :
    clampQ lo hi p = p := by
  unfold clampQ
  rw [min_eq_right h1, max_eq_right h0]

/-- Closed form of the card-scale curve on the first segment. -/
theorem cardScale_eq_low {p : ℚ} (h0 : 0 ≤ p) (h1 : p ≤ 3/10) :
    cardScale p = 4/5 + (2/3) * p := by
  unfold cardScale transform4
  rw [clampQ_eq_self h0 (h1.trans (by norm_num)), if_pos h1]
  unfold mix segProgress
  rw [if_neg (by norm_num : ¬((3:ℚ)/10 - 0 = 0))]
  ring

/-- Closed form of the card-scale curve on the middle segment. -/
theorem cardScale_eq_mid {p : ℚ} (h0 : 3/10 ≤ p) (h1 : p ≤ 7/10) :
    cardScale p = 1 := by
  unfold cardScale transform4
  rw [clampQ_eq_self (le_trans (by norm_num) h0) (h1.trans (by norm_num))]
  by_cases hp : p ≤ 3/10
  · have hpe : p = 3/10 := le_antisymm hp h0
    subst hpe
    rw [if_pos le_rfl]
    unfold mix segProgress
    rw [if_neg (by norm_num : ¬((3:ℚ)/10 - 0 = 0))]
    norm_num
  · rw [if_neg hp, if_pos h1]
    unfold mix
    ring

/-- Closed form of the card-scale curve on the last segment. -/
theorem cardScale_eq_high {p : ℚ} (h0 : 7/10 ≤ p) (h1 : p ≤ 1) :
    cardScale p = 1 - (1/3) * (p - 7/10) := by
  unfold cardScale transform4
  rw [clampQ_eq_self (le_trans (by norm_num) h0) h1]
  have hp3 : ¬p ≤ 3/10 := by intro hc; linarith
  rw [if_neg hp3]
  by_cases hp : p ≤ 7/10
  · have hpe : p = 7/10 := le_antisymm hp h0
    subst hpe
    rw [if_pos le_rfl]
    unfold mix
    ring
  · rw [if_neg hp]
    unfold mix segProgress
    rw [if_neg (by norm_num : ¬((1:ℚ) - 7/10 = 0))]
    ring

/-- Claim C3: the experience-card scale mapping takes the exact values 0.8,
1, 1, 0.9 at progress 0, 0.3, 0.7, 1, is non-decreasing on the first
segment, constant on the middle segment, non-increasing on the last
segment, and stays within [0.8, 1] (no overshoot) on all of [0, 1]. -/
theorem c3_card_scale_curve :
    cardScale 0 = 4/5 ∧ cardScale (3/10) = 1 ∧
    cardScale (7/10) = 1 ∧ cardScale 1 = 9/10 ∧
    (∀ p q : ℚ, 0 ≤ p → p ≤ q → q ≤ 3/10 → cardScale p ≤ cardScale q) ∧
    (∀ p q : ℚ, 3/10 ≤ p → p ≤ q → q ≤ 7/10 → cardScale p = cardScale q) ∧
    (∀ p q : ℚ, 7/10 ≤ p → p ≤ q → q ≤ 1 → cardScale q ≤ cardScale p) ∧
    (∀ p : ℚ, 0 ≤ p → p ≤ 1 → 4/5 ≤ cardScale p ∧ cardScale p ≤ 1) := by
  have hz : cardScale 0 = 4/5 := by
    rw [cardScale_eq_low le_rfl (by norm_num)]; norm_num
  have h3 : cardScale (3/10) = 1 := by
    rw [cardScale_eq_low (by norm_num) le_rfl]; norm_num
  have h7 : cardScale (7/10) = 1 := cardScale_eq_mid (by norm_num) le_rfl
  have h1 : cardScale 1 = 9/10 := by
    rw [cardScale_eq_high (by norm_num) le_rfl]; norm_num
  refine ⟨hz, h3, h7, h1, ?_, ?_, ?_, ?_⟩
  · intro p q hp hpq hq
    rw [cardScale_eq_low hp (hpq.trans hq), cardScale_eq_low (hp.trans hpq) hq]
    linarith
  · intro p q hp hpq hq
    rw [cardScale_eq_mid hp (hpq.trans hq), cardScale_eq_mid (hp.trans hpq) hq]
  · intro p q hp hpq hq
    rw [cardScale_eq_high hp (hpq.trans hq), cardScale_eq_high (hp.trans hpq) hq]
    linarith
  · intro p hp hq
    rcases le_total p (3/10) with hs | hs
    · rw [cardScale_eq_low hp hs]
      constructor <;> linarith
    · rcases le_total p (7/10) with ht | ht
      · rw [cardScale_eq_mid hs ht]
        norm_num
      · rw [cardScale_eq_high ht hq]
        constructor <;> linarith

/-- Witness for claim C3 on concrete interior points of each segment. -/
theorem c3_card_scale_curve_witness :
    cardScale (1/10) ≤ cardScale (1/5) ∧
    cardScale (2/5) = cardScale (3/5) ∧
    cardScale (19/20) ≤ cardScale (4/5) ∧
    4/5 ≤ cardScale (1/2) ∧ cardScale (1/2) ≤ 1 :=
  ⟨c3_card_scale_curve.2.2.2.2.1 (1/10) (1/5) (by norm_num) (by norm_num) (by norm_num),
   c3_card_scale_curve.2.2.2.2.2.1 (2/5) (3/5) (by norm_num) (by norm_num) (by norm_num),
   c3_card_scale_curve.2.2.2.2.2.2.1 (4/5) (19/20) (by norm_num) (by norm_num) (by norm_num),
   (c3_card_scale_curve.2.2.2.2.2.2.2 (1/2) (by norm_num) (by norm_num)).1,
   (c3_card_scale_curve.2.2.2.2.2.2.2 (1/2) (by norm_num) (by norm_num)).2⟩

/-- Claim C7, counterexample: the rendered experience-card scale is the
spring-smoothed value, which depends on the history of scroll frames — the
one-frame trace at position 1/2 and the two-frame trace resting at the same
position 1/2 reach the same scroll position but render different scales. -/
theorem c7_counterexample :
    lastScroll [1/2] = lastScroll [1/2, 1/2] ∧
    renderedCardScale [1/2] ≠ renderedCardScale [1/2, 1/2] := by
  have hz : cardScale 0 = 4/5 := by
    rw [cardScale_eq_low le_rfl (by norm_num)]; norm_num
  have hh : cardScale (1/2) = 1 := cardScale_eq_mid (by norm_num) (by norm_num)
  have e1 : renderedCardScale [1/2] = 29/36 := by
    simp only [renderedCardScale, smoothScaleRun, List.foldl_cons, List.foldl_nil,
      springStep, hz, hh]
    norm_num
  have e2 : renderedCardScale [1/2, 1/2] = 5279/6480 := by
    simp only [renderedCardScale, smoothScaleRun, List.foldl_cons, List.foldl_nil,
      springStep, hz, hh]
    norm_num
  refine ⟨rfl, ?_⟩
  rw [e1, e2]
  norm_num

/-- Claim C7 (amended): the `useTransform`-mapped outputs (progress bar,
card scale and opacity targets, parallax offsets) are pure functions of the
current scroll position — any two traces ending at the same position give
identical mapped outputs — and per-element recomputation is
order-insensitive; only the spring-smoothed rendered card scale carries
history, as the counterexample shows. -/
theorem c7_amended :
    (∀ t₁ t₂ : List ℚ, lastScroll t₁ = lastScroll t₂ →
      traceOutputs t₁ = traceOutputs t₂) ∧
    (∀ (l₁ l₂ : List ℚ) (p : ℚ), l₁.Perm l₂ →
      (l₁.map fun s => parallaxY s p).Perm (l₂.map fun s => parallaxY s p)) := by
  constructor
  · intro t₁ t₂ h
    unfold traceOutputs
    rw [h]
  · intro l₁ l₂ p h
    exact h.map _

/-- Witness for the amended claim C7 on concrete traces and a concrete
permutation of element speeds. -/
theorem c7_amended_witness :
    traceOutputs [0, 1/2] = traceOutputs [1/2] ∧
    ([(3:ℚ)/10, 1/2].map fun s => parallaxY s (1/4)).Perm
      ([(1:ℚ)/2, 3/10].map fun s => parallaxY s (1/4)) :=
  ⟨c7_amended.1 [0, 1/2] [1/2] rfl,
   c7_amended.2 [3/10, 1/2] [1/2, 3/10] (1/4) (List.Perm.swap (1/2) (3/10) [])⟩

/-- Claim C8: in the easter-egg tap machine, six taps landing in the bright
phase of cycles 0 through 5 open the modal, and any tap landing outside the
bright phase zeroes the accepted-tap count and clears the
last-accepted-cycle marker. -/
theorem c8_easter_egg :
    (∀ t0 t1 t2 t3 t4 t5 : ℕ,
      cycleOf t0 = 0 → brightPhase t0 = true →
      cycleOf t1 = 1 → brightPhase t1 = true →
      cycleOf t2 = 2 → brightPhase t2 = true →
      cycleOf t3 = 3 → brightPhase t3 = true →
      cycleOf t4 = 4 → brightPhase t4 = true →
      cycleOf t5 = 5 → brightPhase t5 = true →
      (eggRun eggInit [t0, t1, t2, t3, t4, t5]).isOpen = true) ∧
    (∀ (s : EggState) (t : ℕ), brightPhase t = false →
      (eggStep s t).tapCount = 0 ∧ (eggStep s t).lastAcceptedCycle = none) := by
  constructor
  · intro t0 t1 t2 t3 t4 t5 hc0 hb0 hc1 hb1 hc2 hb2 hc3 hb3 hc4 hb4 hc5 hb5
    have e0 : eggStep eggInit t0 = ⟨1, some 0, 0, false⟩ := by
      simp [eggStep, eggInit, hb0, hc0]
    have e1 : eggStep ⟨1, some 0, 0, false⟩ t1 = ⟨2, some 1, 0, false⟩ := by
      simp [eggStep, hb1, hc1]
    have e2 : eggStep ⟨2, some 1, 0, false⟩ t2 = ⟨3, some 2, 0, false⟩ := by
      simp [eggStep, hb2, hc2]
    have e3 : eggStep ⟨3, some 2, 0, false⟩ t3 = ⟨4, some 3, 0, false⟩ := by
      simp [eggStep, hb3, hc3]
    have e4 : eggStep ⟨4, some 3, 0, false⟩ t4 = ⟨5, some 4, 0, false⟩ := by
      simp [eggStep, hb4, hc4]
    have e5 : eggStep ⟨5, some 4, 0, false⟩ t5 = ⟨0, none, t5 + 30000, true⟩ := by
      simp [eggStep, hb5, hc5]
    simp only [eggRun, List.foldl_cons, List.foldl_nil, e0, e1, e2, e3, e4, e5]
  · intro s t hb
    constructor <;> simp [eggStep, hb]

/-- Witness for claim C8: six taps 100ms into each of the cycles 0 through 5
open the modal, and a tap at 1000ms (mid-cycle, outside the bright phase)
resets the count and the marker. -/
theorem c8_easter_egg_witness :
    (eggRun eggInit [100, 2100, 4100, 6100, 8100, 10100]).isOpen = true ∧
    (eggStep eggInit 1000).tapCount = 0 ∧
    (eggStep eggInit 1000).lastAcceptedCycle = none :=
  ⟨c8_easter_egg.1 100 2100 4100 6100 8100 10100
      (by decide) (by decide) (by decide) (by decide) (by decide) (by decide)
      (by decide) (by decide) (by decide) (by decide) (by decide) (by decide),
   (c8_easter_egg.2 eggInit 1000 (by decide)).1,
   (c8_easter_egg.2 eggInit 1000 (by decide)).2⟩

/-- Increment of the counter is nonnegative for positive durations. -/
theorem counterInc_nonneg (v : ℕ) {d : ℚ} (hd : 0 < d) : 0 ≤ counterInc v d := by
  unfold counterInc
  exact div_nonneg (Nat.cast_nonneg v) (le_of_lt (mul_pos hd (by norm_num)))

/-- A cleared counter timer never changes the state again. -/
theorem counterTick_stopped (v : ℕ) (d : ℚ) (s : CounterState)
    (h : s.running = false) : counterTick v d s = s := by
  simp [counterTick, h]

/-- One more tick after the timer cleared leaves the run unchanged. -/
theorem counterRun_not_running (v : ℕ) (d : ℚ) {k : ℕ}
    (h : (counterRun v d k).running = false) :
    counterRun v d (k + 1) = counterRun v d k := by
  show counterTick v d (counterRun v d k) = counterRun v d k
  exact counterTick_stopped v d _ h

/-- Once the timer cleared, the counter state is frozen forever. -/
theorem counterRun_frozen (v : ℕ) (d : ℚ) {k j : ℕ}
    (h : (counterRun v d k).running = false) (hkj : k ≤ j) :
    counterRun v d j = counterRun v d k := by
  induction j with
  | zero =>
    have hk0 : k = 0 := Nat.le_zero.mp hkj
    rw [hk0]
  | succ j ih =>
    rcases Nat.eq_or_lt_of_le hkj with heq | hlt
    · rw [heq]
    · have hkj2 : k ≤ j := Nat.lt_succ_iff.mp hlt
      have hj := ih hkj2
      show counterTick v d (counterRun v d j) = counterRun v d k
      rw [hj]
      exact counterTick_stopped v d _ h

/-- Run invariant of the counter loop: the accumulator is nonnegative;
while the timer runs the displayed count is the floor of the accumulator,
the accumulator is exactly the number of ticks times the increment and has
not passed the target; once the timer cleared the count is the target. -/
theorem counterRun_inv (v : ℕ) {d : ℚ} (hd : 0 < d) (k : ℕ) :
    0 ≤ (counterRun v d k).start ∧
    ((counterRun v d k).running = true →
      (counterRun v d k).count = ⌊(counterRun v d k).start⌋ ∧
      (counterRun v d k).start = (k : ℚ) * counterInc v d ∧
      (counterRun v d k).start ≤ (v : ℚ)) ∧
    ((counterRun v d k).running = false → (counterRun v d k).count = (v : ℤ)) := by
  induction k with
  | zero =>
    refine ⟨by simp [counterRun], ?_, ?_⟩
    · intro _
      refine ⟨by simp [counterRun], by simp [counterRun], by simp [counterRun]⟩
    · intro h
      simp [counterRun] at h
  | succ k ih =>
    obtain ⟨hs, hrun, hstop⟩ := ih
    cases hr : (counterRun v d k).running with
    | false =>
      rw [counterRun_not_running v d hr]
      refine ⟨hs, ?_, hstop⟩
      intro h
      rw [hr] at h
      exact absurd h (by simp)
    | true =>
      obtain ⟨hcount, hstart, hle⟩ := hrun hr
      have hinc := counterInc_nonneg v hd
      have hrw : counterRun v d (k + 1) = counterTick v d (counterRun v d k) := rfl
      rw [hrw]
      unfold counterTick
      simp only [hr, if_true]
      by_cases hv : (v : ℚ) ≤ (counterRun v d k).start + counterInc v d
      · rw [if_pos hv]
        refine ⟨?_, ?_, ?_⟩
        · show 0 ≤ (counterRun v d k).start + counterInc v d
          linarith
        · intro h
          exact absurd h (by simp)
        · intro _
          rfl
      · rw [if_neg hv]
        push_neg at hv
        refine ⟨?_, ?_, ?_⟩
        · show 0 ≤ (counterRun v d k).start + counterInc v d
          linarith
        · intro _
          refine ⟨rfl, ?_, le_of_lt hv⟩
          show (counterRun v d k).start + counterInc v d = ((k : ℕ) + 1 : ℕ) * counterInc v d
          rw [hstart]
          push_cast
          ring
        · intro h
          exact absurd h (by simp)

/-- The displayed count never goes below zero. -/
theorem counterRun_count_nonneg (v : ℕ) {d : ℚ} (hd : 0 < d) (k : ℕ) :
    0 ≤ (counterRun v d k).count := by
  obtain ⟨hs, hrun, hstop⟩ := counterRun_inv v hd k
  cases hr : (counterRun v d k).running with
  | true =>
    obtain ⟨hcount, _, _⟩ := hrun hr
    rw [hcount]
    exact Int.floor_nonneg.mpr hs
  | false =>
    rw [hstop hr]
    exact Int.natCast_nonneg v

/-- The displayed count never exceeds the target. -/
theorem counterRun_count_le (v : ℕ) {d : ℚ} (hd : 0 < d) (k : ℕ) :
    (counterRun v d k).count ≤ (v : ℤ) := by
  obtain ⟨hs, hrun, hstop⟩ := counterRun_inv v hd k
  cases hr : (counterRun v d k).running with
  | true =>
    obtain ⟨hcount, _, hle⟩ := hrun hr
    rw [hcount]
    have hfl := Int.floor_le_floor hle
    simpa using hfl
  | false =>
    rw [hstop hr]

/-- The displayed count is non-decreasing from tick to tick. -/
theorem counterRun_mono (v : ℕ) {d : ℚ} (hd : 0 < d) (k : ℕ) :
    (counterRun v d k).count ≤ (counterRun v d (k + 1)).count := by
  obtain ⟨hs, hrun, hstop⟩ := counterRun_inv v hd k
  cases hr : (counterRun v d k).running with
  | false =>
    rw [counterRun_not_running v d hr]
  | true =>
    obtain ⟨hcount, hstart, hle⟩ := hrun hr
    have hinc := counterInc_nonneg v hd
    have hrw : counterRun v d (k + 1) = counterTick v d (counterRun v d k) := rfl
    rw [hrw]
    unfold counterTick
    simp only [hr, if_true]
    by_cases hv : (v : ℚ) ≤ (counterRun v d k).start + counterInc v d
    · rw [if_pos hv]
      show (counterRun v d k).count ≤ ((v : ℕ) : ℤ)
      exact counterRun_count_le v hd k
    · rw [if_neg hv]
      show (counterRun v d k).count ≤ ⌊(counterRun v d k).start + counterInc v d⌋
      rw [hcount]
      exact Int.floor_le_floor (by linarith)

/-- The counter completes: after finitely many ticks the timer has cleared
and the displayed count equals the target forever after. -/
theorem counterRun_completes (v : ℕ) {d : ℚ} (hd : 0 < d) :
    ∃ K : ℕ, ∀ k : ℕ, K ≤ k →
      (counterRun v d k).running = false ∧ (counterRun v d k).count = (v : ℤ) := by
  by_cases hv : v = 0
  · subst hv
    have h1 : (counterRun 0 d 1).running = false := by
      have hrw : counterRun 0 d 1 = counterTick 0 d (counterRun 0 d 0) := rfl
      rw [hrw]
      simp [counterRun, counterTick, counterInc]
    refine ⟨1, fun k hk => ?_⟩
    rw [counterRun_frozen 0 d h1 hk]
    exact ⟨h1, (counterRun_inv 0 hd 1).2.2 h1⟩
  · have hvpos : 0 < v := Nat.pos_of_ne_zero hv
    have hinc : 0 < counterInc v d := by
      unfold counterInc
      apply div_pos
      · exact_mod_cast hvpos
      · exact mul_pos hd (by norm_num)
    obtain ⟨n, hn⟩ := exists_nat_gt ((v : ℚ) / counterInc v d)
    have hrn : (counterRun v d n).running = false := by
      by_contra hcon
      rw [Bool.not_eq_false] at hcon
      obtain ⟨_, hstart, hle⟩ := (counterRun_inv v hd n).2.1 hcon
      rw [hstart] at hle
      have hdiv : (n : ℚ) ≤ (v : ℚ) / counterInc v d := (le_div_iff₀ hinc).mpr hle
      linarith
    refine ⟨n, fun k hk => ?_⟩
    rw [counterRun_frozen v d hrn hk]
    exact ⟨hrn, (counterRun_inv v hd n).2.2 hrn⟩

/-- Claim C9: for every target value and positive duration the displayed
count starts at 0, is non-decreasing over the ticks, stays within [0, v],
eventually the timer clears with the count equal to exactly v and stays so,
a cleared timer never fires again, and under reduced motion the count is
set to v immediately. -/
theorem c9_counter (v : ℕ) (d : ℚ) (hd : 0 < d) :
    (counterRun v d 0).count = 0 ∧
    (∀ k : ℕ, (counterRun v d k).count ≤ (counterRun v d (k + 1)).count) ∧
    (∀ k : ℕ, 0 ≤ (counterRun v d k).count ∧ (counterRun v d k).count ≤ (v : ℤ)) ∧
    (∃ K : ℕ, ∀ k : ℕ, K ≤ k →
      (counterRun v d k).running = false ∧ (counterRun v d k).count = (v : ℤ)) ∧
    (∀ s : CounterState, s.running = false → counterTick v d s = s) ∧
    counterReducedCount v = (v : ℤ) :=
  ⟨rfl, fun k => counterRun_mono v hd k,
   fun k => ⟨counterRun_count_nonneg v hd k, counterRun_count_le v hd k⟩,
   counterRun_completes v hd,
   fun s hs => counterTick_stopped v d s hs, rfl⟩

/-- Witness for claim C9 at target 10 and duration 2 seconds. -/
theorem c9_counter_witness : (0 : ℚ) < 2 ∧ (counterRun 10 2 0).count = 0 :=
  ⟨by norm_num, (c9_counter 10 2 (by norm_num)).1⟩
